import Mathlib

/-!
# Verification of the `pd_typeguard` return-value validation framework

Shallow embedding of `src/pd_typeguard/decorators.py` and
`src/pd_typeguard/exceptions.py`.

Modelling choices:
* A Python value reaching `validate` is a `PyVal`: `none` (Python `None`),
  a scalar (no `len`, no `.columns`), a plain list (has `len`, no
  `.columns`), or a pandas `DataFrame` modelled as `Table`.
* A `Table` is a row count together with named columns; each column has a
  declared dtype tag and a cell list, where a cell `Option.none` is a null
  (pandas `NaN`).
* Raising an exception is modelled with `Except`: `validate` returns
  `Except PdError PyVal`.  `PdError` carries the structured content of the
  exception message (offending columns, counts, expected tags) instead of a
  formatted string.  `PdError.attributeError` models the plain Python
  `AttributeError` raised by `HasColumn._validate_has_columns`, which is NOT
  a subclass of `ReturnValueError`; every other constructor models one of the
  `ReturnValueError` subclasses of `exceptions.py`.
-/

/-- A column of a DataFrame: a declared dtype tag and the cells,
`Option.none` being a null value. -/
structure Column where
  dtype : String
  cells : List (Option Int)
deriving DecidableEq, Repr

/-- A pandas DataFrame: named columns plus the row count (`len(value)`). -/
structure Table where
  nrows : Nat
  cols : List (String × Column)
deriving DecidableEq, Repr

/-- The column names, in order (`value.columns`). -/
def Table.colNames (t : Table) : List String :=
  t.cols.map Prod.fst

/-- Column lookup (`value[name]`); first match, `Option.none` if absent. -/
def Table.getCol (t : Table) (name : String) : Option Column :=
  (t.cols.find? (fun p => p.1 == name)).map Prod.snd

/-- The dtype tag of a column (`value[name].dtype`), if the column exists. -/
def Table.dtypeOf (t : Table) (name : String) : Option String :=
  (t.getCol name).map Column.dtype

/-- Null count of a column (`value[name].isnull().sum()`); 0 if absent. -/
def Table.nullCount (t : Table) (name : String) : Nat :=
  ((t.getCol name).map (fun c => (c.cells.filter Option.isNone).length)).getD 0

/-- Distinct-value count of a column (`value[name].nunique()`): pandas
counts distinct non-null values, nulls excluded; 0 if absent. -/
def Table.nunique (t : Table) (name : String) : Nat :=
  ((t.getCol name).map (fun c => (c.cells.filterMap id).dedup.length)).getD 0

/-- A well-formed DataFrame: every column holds exactly `nrows` cells. -/
def Table.WF (t : Table) : Prop :=
  ∀ p ∈ t.cols, p.2.cells.length = t.nrows

/-- A Python value handed to `validate`. -/
inductive PyVal where
  /-- Python `None`. -/
  | none : PyVal
  /-- A scalar: no length concept (`len` raises `TypeError`), no `.columns`. -/
  | scalar (n : Int) : PyVal
  /-- A plain sequence: has a length, but no `.columns` attribute. -/
  | list (xs : List Int) : PyVal
  /-- A DataFrame. -/
  | table (t : Table) : PyVal
deriving DecidableEq, Repr

/-- `len(value)`, when the value has a length concept. -/
def PyVal.length : PyVal → Option Nat
  | .none => Option.none
  | .scalar _ => Option.none
  | .list xs => some xs.length
  | .table t => some t.nrows

/-- The exceptions a validator can raise, with structured message content.
`attributeError` models Python's builtin `AttributeError` (not part of the
`ReturnValueError` taxonomy); the rest model `exceptions.py`. -/
inductive PdError where
  /-- Builtin `AttributeError`: the value has no `.columns` attribute. -/
  | attributeError : PdError
  /-- `DFEmptyError` with its message. -/
  | dfEmpty (msg : String) : PdError
  /-- `MissingColumnError`, naming the missing columns. -/
  | missingColumn (missing : List String) : PdError
  /-- `WrongDtypeError`, naming each offending column with actual and
  expected dtype tag. -/
  | wrongDtype (entries : List (String × String × String)) : PdError
  /-- `ColumnNullError`, carrying the row count and, per offending column,
  its null count and declared policy. -/
  | columnNull (nrows : Nat) (entries : List (String × Nat × String)) : PdError
  /-- `ColumnNotUniqueError`, naming the column and the first duplicate. -/
  | notUnique (col : String) (firstDup : Option Int) : PdError
  /-- `ColumnNotSingleValueError`, naming the column. -/
  | notSingleValue (col : String) : PdError
deriving DecidableEq, Repr

/-- Whether the error belongs to the `ReturnValueError` taxonomy (every
category except the builtin `AttributeError`). -/
def PdError.isReturnValueError : PdError → Bool
  | .attributeError => false
  | _ => true

/-- Whether the error is the `EmptyValue` category (`DFEmptyError`). -/
def PdError.isEmptyValue : PdError → Bool
  | .dfEmpty _ => true
  | _ => false

/-- Whether the error is the `MissingColumn` category. -/
def PdError.isMissingColumn : PdError → Bool
  | .missingColumn _ => true
  | _ => false

/-! ## `NotEmpty` (the EmptinessValidator) -/

/-- Configuration of `NotEmpty`. -/
structure NotEmpty where
  allow_none : Bool := false
  allow_scalar : Bool := true
deriving DecidableEq, Repr

/-- `NotEmpty.validate`: `None` is rejected unless `allow_none`; a value of
length zero is rejected; a value without a length concept (`len` raises
`TypeError`) is rejected only when `allow_scalar` is false. -/
def NotEmpty.validate (v : NotEmpty) (x : PyVal) : Except PdError PyVal :=
  match x with
  | .none =>
      if v.allow_none then .ok .none
      else .error (.dfEmpty "return value is None")
  | x =>
      match x.length with
      | some n =>
          if n = 0 then .error (.dfEmpty "value is empty") else .ok x
      | Option.none =>
          if v.allow_scalar then .ok x
          else .error (.dfEmpty "value is of scalar type")

/-! ## `HasColumn` (the ColumnPresenceValidator template) -/

/-- Configuration shared by all column-based validators. -/
structure HasColumn where
  columns : List String
  allow_none : Bool := false
  allow_empty : Bool := false
deriving DecidableEq, Repr

/-- `HasColumn._validate_has_columns`: accessing `value.columns` on a value
without that attribute raises a plain `AttributeError`; otherwise the
required columns not present are collected and, if any, raise
`MissingColumnError` naming them all. -/
def HasColumn.validate_has_columns (cfg : HasColumn) (x : PyVal) :
    Except PdError Unit :=
  match x with
  | .table t =>
      let missing := cfg.columns.filter (fun c => !(t.colNames.contains c))
      if missing.isEmpty then .ok ()
      else .error (.missingColumn missing)
  | _ => .error .attributeError

/-- `HasColumn._validate_empty`: a zero-length value either passes with the
flag `true` (when `allow_empty`) or raises `DFEmptyError`; a non-empty value
passes with the flag `false`. -/
def HasColumn.validate_empty (cfg : HasColumn) (t : Table) :
    Except PdError Bool :=
  if t.nrows = 0 then
    if cfg.allow_empty then .ok true
    else .error (.dfEmpty "Return value has length 0.")
  else .ok false

/-- The template method `HasColumn.validate`, parameterised by the detail
hook the subclasses override: None-check, then column presence, then
emptiness, then the detail hook, then return the value unchanged. -/
def hasColumnValidate (cfg : HasColumn)
    (hook : Table → Bool → Except PdError Unit) (x : PyVal) :
    Except PdError PyVal :=
  match x with
  | .none =>
      if cfg.allow_none then .ok .none
      else .error (.dfEmpty "Return value must not be None.")
  | x =>
      match cfg.validate_has_columns x with
      | .error e => .error e
      | .ok _ =>
          match x with
          | .table t =>
              match cfg.validate_empty t with
              | .error e => .error e
              | .ok is_empty =>
                  match hook t is_empty with
                  | .error e => .error e
                  | .ok _ => .ok x
          | _ => .error .attributeError

/-- `HasColumn._validate_details` is a no-op in the base class. -/
def HasColumn.validate_details (_ : HasColumn) (_ : Table) (_ : Bool) :
    Except PdError Unit := .ok ()

/-- `HasColumn.validate`. -/
def HasColumn.validate (cfg : HasColumn) : PyVal → Except PdError PyVal :=
  hasColumnValidate cfg cfg.validate_details

/-! ## `ColumnHasDtype` (the DtypeValidator) -/

/-- Configuration of `ColumnHasDtype`: pairs column name with expected
dtype tag (the dict `dtypes`). -/
structure ColumnHasDtype where
  dtypes : List (String × String)
  allow_none : Bool := false
  allow_empty : Bool := false
deriving DecidableEq, Repr

/-- The `HasColumn` configuration `ColumnHasDtype.__init__` builds: the
required columns are the keys of `dtypes`. -/
def ColumnHasDtype.toHasColumn (v : ColumnHasDtype) : HasColumn :=
  { columns := v.dtypes.map Prod.fst
    allow_none := v.allow_none
    allow_empty := v.allow_empty }

/-- The configured columns whose actual dtype differs from the expected
tag, in configuration order (the `wrong_dtypes` list). -/
def ColumnHasDtype.wrongDtypes (v : ColumnHasDtype) (t : Table) :
    List (String × String) :=
  v.dtypes.filter (fun p => !(t.dtypeOf p.1 == some p.2))

/-- `ColumnHasDtype._validate_details`: collect every configured column with
a wrong dtype and, if any, raise one `WrongDtypeError` naming each with
actual and expected tag.  Note: the hook ignores `is_empty`. -/
def ColumnHasDtype.validate_details (v : ColumnHasDtype) (t : Table)
    (_is_empty : Bool) : Except PdError Unit :=
  let wrong := v.wrongDtypes t
  if wrong.isEmpty then .ok ()
  else .error (.wrongDtype (wrong.map
    (fun p => (p.1, (t.dtypeOf p.1).getD "", p.2))))

/-- `ColumnHasDtype.validate` (inherited template with the dtype hook). -/
def ColumnHasDtype.validate (v : ColumnHasDtype) :
    PyVal → Except PdError PyVal :=
  hasColumnValidate v.toHasColumn v.validate_details

/-! ## `ColumnNotNull` (the NullPolicyValidator) -/

/-- Configuration of `ColumnNotNull`: pairs column name with the policy tag
(`'all'`: no value may be null; `'any'`: at least one value not null). -/
structure ColumnNotNull where
  notnull : List (String × String)
  allow_none : Bool := false
  allow_empty : Bool := false
deriving DecidableEq, Repr

/-- The `HasColumn` configuration `ColumnNotNull.__init__` builds. -/
def ColumnNotNull.toHasColumn (v : ColumnNotNull) : HasColumn :=
  { columns := v.notnull.map Prod.fst
    allow_none := v.allow_none
    allow_empty := v.allow_empty }

/-- The frame columns with zero nulls (`notnull_all`). -/
def Table.notnullAll (t : Table) : List String :=
  t.colNames.filter (fun c => t.nullCount c == 0)

/-- The frame columns with fewer nulls than rows (`notnull_any`). -/
def Table.notnullAny (t : Table) : List String :=
  t.colNames.filter (fun c => t.nullCount c < t.nrows)

/-- The configured columns violating their declared policy, in
configuration order (the `wrong_content` list). -/
def ColumnNotNull.wrongContent (v : ColumnNotNull) (t : Table) :
    List (String × String) :=
  v.notnull.filter (fun p =>
    (p.2 == "any" && !(t.notnullAny.contains p.1)) ||
    (p.2 == "all" && !(t.notnullAll.contains p.1)))

/-- `ColumnNotNull._validate_details`: a no-op on an empty frame; otherwise
collect every configured column violating its policy and, if any, raise one
`ColumnNullError` naming each with its null count and declared policy. -/
def ColumnNotNull.validate_details (v : ColumnNotNull) (t : Table)
    (is_empty : Bool) : Except PdError Unit :=
  if is_empty then .ok ()
  else
    let wrong := v.wrongContent t
    if wrong.isEmpty then .ok ()
    else .error (.columnNull t.nrows (wrong.map
      (fun p => (p.1, t.nullCount p.1, p.2))))

/-- `ColumnNotNull.validate` (inherited template with the null hook). -/
def ColumnNotNull.validate (v : ColumnNotNull) :
    PyVal → Except PdError PyVal :=
  hasColumnValidate v.toHasColumn v.validate_details

/-! ## `ColumnUnique` (the UniquenessValidator) -/

/-- Configuration of `ColumnUnique`: the required column names. -/
structure ColumnUnique where
  columns : List String
  allow_none : Bool := false
  allow_empty : Bool := false
deriving DecidableEq, Repr

/-- The `HasColumn` configuration of a `ColumnUnique`. -/
def ColumnUnique.toHasColumn (v : ColumnUnique) : HasColumn :=
  { columns := v.columns
    allow_none := v.allow_none
    allow_empty := v.allow_empty }

/-- The first cell equal to an earlier cell
(`value[col][value[col].duplicated()].iloc[0]`), if any. -/
def firstDupAux : List (Option Int) → List (Option Int) → Option (Option Int)
  | _, [] => Option.none
  | seen, c :: rest =>
      if c ∈ seen then some c else firstDupAux (c :: seen) rest

/-- The first duplicated cell of a cell list. -/
def firstDup (cells : List (Option Int)) : Option (Option Int) :=
  firstDupAux [] cells

/-- The cells of a column, `[]` when absent. -/
def Table.cellsOf (t : Table) (name : String) : List (Option Int) :=
  ((t.getCol name).map Column.cells).getD []

/-- `ColumnUnique._validate_details`: a no-op on an empty frame; otherwise
fail fast on the first configured column holding a duplicate, naming the
column and the first duplicated value. -/
def ColumnUnique.validate_details (v : ColumnUnique) (t : Table)
    (is_empty : Bool) : Except PdError Unit :=
  if is_empty then .ok ()
  else
    match v.columns.find? (fun c => (firstDup (t.cellsOf c)).isSome) with
    | some c => .error (.notUnique c ((firstDup (t.cellsOf c)).getD Option.none))
    | Option.none => .ok ()

/-- `ColumnUnique.validate` (inherited template with the uniqueness hook). -/
def ColumnUnique.validate (v : ColumnUnique) :
    PyVal → Except PdError PyVal :=
  hasColumnValidate v.toHasColumn v.validate_details

/-! ## `ColumnSingleValue` (the SingleValueValidator) -/

/-- Configuration of `ColumnSingleValue`: the required column names. -/
structure ColumnSingleValue where
  columns : List String
  allow_none : Bool := false
  allow_empty : Bool := false
deriving DecidableEq, Repr

/-- The `HasColumn` configuration of a `ColumnSingleValue`. -/
def ColumnSingleValue.toHasColumn (v : ColumnSingleValue) : HasColumn :=
  { columns := v.columns
    allow_none := v.allow_none
    allow_empty := v.allow_empty }

/-- `ColumnSingleValue._validate_details`: a no-op on an empty frame;
otherwise fail fast on the first configured column with more than one
distinct (non-null) value. -/
def ColumnSingleValue.validate_details (v : ColumnSingleValue) (t : Table)
    (is_empty : Bool) : Except PdError Unit :=
  if is_empty then .ok ()
  else
    match v.columns.find? (fun c => 1 < t.nunique c) with
    | some c => .error (.notSingleValue c)
    | Option.none => .ok ()

/-- `ColumnSingleValue.validate` (inherited template with the
single-value hook). -/
def ColumnSingleValue.validate (v : ColumnSingleValue) :
    PyVal → Except PdError PyVal :=
  hasColumnValidate v.toHasColumn v.validate_details

/-! ## The validator hierarchy as one type, and wrapping -/

/-- Any of the six concrete validator classes. -/
inductive Validator where
  | notEmpty (v : NotEmpty) : Validator
  | hasColumn (v : HasColumn) : Validator
  | columnHasDtype (v : ColumnHasDtype) : Validator
  | columnNotNull (v : ColumnNotNull) : Validator
  | columnUnique (v : ColumnUnique) : Validator
  | columnSingleValue (v : ColumnSingleValue) : Validator
deriving DecidableEq, Repr

/-- Dynamic dispatch of `validate`. -/
def Validator.validate : Validator → PyVal → Except PdError PyVal
  | .notEmpty v => v.validate
  | .hasColumn v => v.validate
  | .columnHasDtype v => v.validate
  | .columnNotNull v => v.validate
  | .columnUnique v => v.validate
  | .columnSingleValue v => v.validate

/-- The validator's `allow_none` flag. -/
def Validator.allow_none : Validator → Bool
  | .notEmpty v => v.allow_none
  | .hasColumn v => v.allow_none
  | .columnHasDtype v => v.allow_none
  | .columnNotNull v => v.allow_none
  | .columnUnique v => v.allow_none
  | .columnSingleValue v => v.allow_none

/-- Whether the validator is column-based (a `HasColumn` subclass). -/
def Validator.isColumnBased : Validator → Bool
  | .notEmpty _ => false
  | _ => true

/-- `ReturnValueDecorator.__call__`: wrapping a function yields a callable
with the same inputs that calls the function, then validates its result. -/
def Validator.wrap {α : Type} (v : Validator) (f : α → PyVal) :
    α → Except PdError PyVal :=
  fun a => v.validate (f a)

/-- Wrapping a function that may itself raise (e.g. one already wrapped by
another validator): a raised error propagates before `validate` runs, as a
Python exception would. -/
def Validator.wrapE {α : Type} (v : Validator) (f : α → Except PdError PyVal) :
    α → Except PdError PyVal :=
  fun a => (f a).bind v.validate

/-! ## Example frames used as concrete test fixtures -/

/-- A zero-row frame with a single `int64` column `a`. -/
def emptyTableA : Table :=
  { nrows := 0, cols := [("a", { dtype := "int64", cells := [] })] }

/-- A two-row frame: column `a` holds one null, column `b` only nulls. -/
def nullTableAB : Table :=
  { nrows := 2,
    cols := [("a", { dtype := "float64", cells := [some 1, Option.none] }),
             ("b", { dtype := "float64",
                     cells := [Option.none, Option.none] })] }

/-- A two-row frame whose only column `a` is entirely null. -/
def allNullTableA : Table :=
  { nrows := 2,
    cols := [("a", { dtype := "object",
                     cells := [Option.none, Option.none] })] }

/-- A two-row frame with an `int64` column `a` and a text column `b`. -/
def typedTableAB : Table :=
  { nrows := 2,
    cols := [("a", { dtype := "int64", cells := [some 1, some 2] }),
             ("b", { dtype := "object", cells := [some 3, some 3] })] }

/-! ## Helper lemmas -/

theorem missing_isEmpty_iff (cfg : HasColumn) (t : Table) :
    (cfg.columns.filter (fun c => !(t.colNames.contains c))).isEmpty = true ↔
      ∀ c ∈ cfg.columns, c ∈ t.colNames := by
  simp [List.isEmpty_iff, List.filter_eq_nil_iff, List.elem_iff]

theorem validate_has_columns_ok (cfg : HasColumn) (t : Table)
    (hcols : ∀ c ∈ cfg.columns, c ∈ t.colNames) :
    cfg.validate_has_columns (.table t) = .ok () := by
  simp only [HasColumn.validate_has_columns]
  rw [if_pos ((missing_isEmpty_iff cfg t).2 hcols)]

theorem hasColumnValidate_nonempty (cfg : HasColumn)
    (hook : Table → Bool → Except PdError Unit) (t : Table)
    (hcols : ∀ c ∈ cfg.columns, c ∈ t.colNames) (hne : t.nrows ≠ 0) :
    hasColumnValidate cfg hook (.table t) =
      match hook t false with
      | .ok _ => .ok (.table t)
      | .error e => .error e := by
  have h1 : cfg.validate_empty t = .ok false := by
    simp [HasColumn.validate_empty, hne]
  simp only [hasColumnValidate, validate_has_columns_ok cfg t hcols, h1]
  cases hook t false <;> rfl

theorem hasColumnValidate_empty (cfg : HasColumn)
    (hook : Table → Bool → Except PdError Unit) (t : Table)
    (hcols : ∀ c ∈ cfg.columns, c ∈ t.colNames) (hz : t.nrows = 0)
    (hae : cfg.allow_empty = true) :
    hasColumnValidate cfg hook (.table t) =
      match hook t true with
      | .ok _ => .ok (.table t)
      | .error e => .error e := by
  have h1 : cfg.validate_empty t = .ok true := by
    simp [HasColumn.validate_empty, hz, hae]
  simp only [hasColumnValidate, validate_has_columns_ok cfg t hcols, h1]
  cases hook t true <;> rfl

theorem hasColumnValidate_ok_eq (cfg : HasColumn)
    (hook : Table → Bool → Except PdError Unit) (x y : PyVal)
    (h : hasColumnValidate cfg hook x = .ok y) : y = x := by
  cases x <;> simp only [hasColumnValidate] at h
  case none => split at h <;> simp_all
  case scalar n => simp [HasColumn.validate_has_columns] at h
  case list xs => simp [HasColumn.validate_has_columns] at h
  case table t =>
    cases h1 : cfg.validate_has_columns (PyVal.table t) with
    | error e => rw [h1] at h; simp at h
    | ok u =>
        rw [h1] at h
        cases h2 : cfg.validate_empty t with
        | error e => rw [h2] at h; simp at h
        | ok b =>
            rw [h2] at h
            cases h3 : hook t b with
            | error e => simp [h3] at h
            | ok u2 => simp [h3] at h; exact h.symm

theorem validate_ok_eq (V : Validator) (x y : PyVal)
    (h : V.validate x = .ok y) : y = x := by
  cases V with
  | notEmpty v =>
      simp only [Validator.validate, NotEmpty.validate] at h
      cases x <;> simp only [PyVal.length] at h <;> split at h <;> simp_all
  | hasColumn v =>
      simp only [Validator.validate, HasColumn.validate] at h
      exact hasColumnValidate_ok_eq _ _ _ _ h
  | columnHasDtype v =>
      simp only [Validator.validate, ColumnHasDtype.validate] at h
      exact hasColumnValidate_ok_eq _ _ _ _ h
  | columnNotNull v =>
      simp only [Validator.validate, ColumnNotNull.validate] at h
      exact hasColumnValidate_ok_eq _ _ _ _ h
  | columnUnique v =>
      simp only [Validator.validate, ColumnUnique.validate] at h
      exact hasColumnValidate_ok_eq _ _ _ _ h
  | columnSingleValue v =>
      simp only [Validator.validate, ColumnSingleValue.validate] at h
      exact hasColumnValidate_ok_eq _ _ _ _ h

/-! ## Claim theorems -/

/-- C3: for every validator type, `allow_none=True` makes `validate(None)`
return `None`, and `allow_none=False` makes `validate(None)` raise the
`EmptyValue` category (`DFEmptyError`). -/
theorem allow_none_contract (V : Validator) :
    (V.allow_none = true → V.validate .none = .ok .none) ∧
    (V.allow_none = false →
      ∃ msg, V.validate .none = .error (.dfEmpty msg)) := by
  have hgen : ∀ (cfg : HasColumn) (hook : Table → Bool → Except PdError Unit),
      (cfg.allow_none = true → hasColumnValidate cfg hook .none = .ok .none) ∧
      (cfg.allow_none = false → ∃ msg,
        hasColumnValidate cfg hook .none = .error (.dfEmpty msg)) := by
    intro cfg hook
    refine ⟨fun h => ?_, fun h => ⟨"Return value must not be None.", ?_⟩⟩ <;>
      simp [hasColumnValidate, h]
  cases V with
  | notEmpty v =>
      refine ⟨fun h => ?_, fun h => ⟨"return value is None", ?_⟩⟩ <;>
        simp only [Validator.allow_none] at h <;>
          simp [Validator.validate, NotEmpty.validate, h]
  | hasColumn v =>
      simpa only [Validator.validate, Validator.allow_none,
        HasColumn.validate] using hgen v v.validate_details
  | columnHasDtype v =>
      simpa only [Validator.validate, Validator.allow_none,
        ColumnHasDtype.validate, ColumnHasDtype.toHasColumn]
        using hgen v.toHasColumn v.validate_details
  | columnNotNull v =>
      simpa only [Validator.validate, Validator.allow_none,
        ColumnNotNull.validate, ColumnNotNull.toHasColumn]
        using hgen v.toHasColumn v.validate_details
  | columnUnique v =>
      simpa only [Validator.validate, Validator.allow_none,
        ColumnUnique.validate, ColumnUnique.toHasColumn]
        using hgen v.toHasColumn v.validate_details
  | columnSingleValue v =>
      simpa only [Validator.validate, Validator.allow_none,
        ColumnSingleValue.validate, ColumnSingleValue.toHasColumn]
        using hgen v.toHasColumn v.validate_details

theorem allow_none_contract_witness :
    ((Validator.notEmpty { allow_none := true }).validate .none
        = .ok .none) ∧
    ∃ msg, (Validator.hasColumn { columns := ["a"] }).validate .none
        = .error (.dfEmpty msg) :=
  ⟨(allow_none_contract (.notEmpty { allow_none := true })).1 rfl,
   (allow_none_contract (.hasColumn { columns := ["a"] })).2 rfl⟩

/-- C5: the emptiness validator rejects an empty sequence with
`EmptyValue`, returns a non-empty sequence unchanged, and on a value with
no length concept returns it unchanged when `allow_scalar` is true but
rejects it with `EmptyValue` when `allow_scalar=False`. -/
theorem notEmpty_validate_spec (v : NotEmpty) (xs : List Int) (n : Int) :
    (v.validate (.list []) = .error (.dfEmpty "value is empty")) ∧
    (xs ≠ [] → v.validate (.list xs) = .ok (.list xs)) ∧
    (v.allow_scalar = true → v.validate (.scalar n) = .ok (.scalar n)) ∧
    (v.allow_scalar = false →
      v.validate (.scalar n) = .error (.dfEmpty "value is of scalar type")) := by
  refine ⟨?_, fun hxs => ?_, fun h => ?_, fun h => ?_⟩ <;>
    simp [NotEmpty.validate, PyVal.length, List.length_eq_zero, *]

theorem notEmpty_validate_spec_witness :
    (NotEmpty.validate {} (.list []) = .error (.dfEmpty "value is empty")) ∧
    (NotEmpty.validate {} (.list [1]) = .ok (.list [1])) ∧
    (NotEmpty.validate {} (.scalar 1) = .ok (.scalar 1)) ∧
    (NotEmpty.validate { allow_scalar := false } (.scalar 1)
        = .error (.dfEmpty "value is of scalar type")) :=
  ⟨(notEmpty_validate_spec {} [1] 1).1,
   (notEmpty_validate_spec {} [1] 1).2.1 (by decide),
   (notEmpty_validate_spec {} [1] 1).2.2.1 rfl,
   (notEmpty_validate_spec { allow_scalar := false } [1] 1).2.2.2 rfl⟩

/-- C7: wrapping a function yields a callable that calls the original and
returns `validate` of its result; composing a second validator on top
applies the second check to the first's output, and when the first-applied
validator raises, the second validator's check never runs (the composite
returns the first error unchanged, whatever the second validator is). -/
theorem wrap_composition {α : Type} (vA vB : Validator) (f : α → PyVal)
    (a : α) :
    (vA.wrap f a = vA.validate (f a)) ∧
    (∀ y, vA.validate (f a) = .ok y →
      vB.wrapE (vA.wrap f) a = vB.validate y) ∧
    (∀ e, vA.validate (f a) = .error e →
      vB.wrapE (vA.wrap f) a = .error e) := by
  refine ⟨rfl, fun y h => ?_, fun e h => ?_⟩ <;>
    simp [Validator.wrapE, Validator.wrap, h, Except.bind]

theorem wrap_composition_witness :
    (Validator.notEmpty {}).wrapE
        ((Validator.notEmpty {}).wrap (fun _ : Unit => PyVal.list [])) ()
      = .error (.dfEmpty "value is empty") :=
  (wrap_composition (Validator.notEmpty {}) (Validator.notEmpty {})
      (fun _ : Unit => PyVal.list []) ()).2.2 _ rfl

/-- C8: whenever `validate` succeeds it returns the input value itself
unchanged, and consequently validation is idempotent on success:
validating the returned value succeeds with the same value again. -/
theorem validate_idempotent (V : Validator) (x y : PyVal)
    (h : V.validate x = .ok y) :
    y = x ∧ V.validate y = .ok y := by
  have hyx := validate_ok_eq V x y h
  subst hyx
  exact ⟨rfl, h⟩

theorem validate_idempotent_witness :
    PyVal.list [1] = PyVal.list [1] ∧
      (Validator.notEmpty {}).validate (.list [1]) = .ok (.list [1]) :=
  validate_idempotent (.notEmpty {}) (.list [1]) (.list [1]) rfl

theorem hasColumnValidate_no_columns (cfg : HasColumn)
    (hook : Table → Bool → Except PdError Unit) (x : PyVal)
    (hnc : (∃ n, x = .scalar n) ∨ (∃ xs, x = .list xs)) :
    hasColumnValidate cfg hook x = .error .attributeError := by
  rcases hnc with ⟨n, rfl⟩ | ⟨xs, rfl⟩ <;>
    simp [hasColumnValidate, HasColumn.validate_has_columns]

/-- C1 counterexample: on a plain list — a non-None value with no column
concept — the column-presence validator raises the builtin
`AttributeError`, which is neither the `MissingColumn` category nor any
`ReturnValueError` at all. -/
theorem no_column_concept_cex :
    HasColumn.validate { columns := ["a"] } (.list [1])
        = .error .attributeError ∧
    PdError.isMissingColumn .attributeError = false ∧
    PdError.isReturnValueError .attributeError = false :=
  ⟨rfl, rfl, rfl⟩

/-- C1 (amended): for every column-based validator and every non-None
value that exposes no column concept, `validate` fails with the generic
builtin `AttributeError` (outside the `ReturnValueError` taxonomy), not
with the `MissingColumn` category. -/
theorem no_column_concept_attributeError (V : Validator) (x : PyVal)
    (hcb : V.isColumnBased = true)
    (hnc : (∃ n, x = .scalar n) ∨ (∃ xs, x = .list xs)) :
    V.validate x = .error .attributeError ∧
    PdError.isMissingColumn .attributeError = false := by
  refine ⟨?_, rfl⟩
  cases V with
  | notEmpty v => simp [Validator.isColumnBased] at hcb
  | hasColumn v =>
      simpa only [Validator.validate, HasColumn.validate] using
        hasColumnValidate_no_columns v v.validate_details x hnc
  | columnHasDtype v =>
      simpa only [Validator.validate, ColumnHasDtype.validate] using
        hasColumnValidate_no_columns v.toHasColumn v.validate_details x hnc
  | columnNotNull v =>
      simpa only [Validator.validate, ColumnNotNull.validate] using
        hasColumnValidate_no_columns v.toHasColumn v.validate_details x hnc
  | columnUnique v =>
      simpa only [Validator.validate, ColumnUnique.validate] using
        hasColumnValidate_no_columns v.toHasColumn v.validate_details x hnc
  | columnSingleValue v =>
      simpa only [Validator.validate, ColumnSingleValue.validate] using
        hasColumnValidate_no_columns v.toHasColumn v.validate_details x hnc

theorem no_column_concept_attributeError_witness :
    (Validator.hasColumn { columns := ["a"] }).validate (.list [1])
        = .error .attributeError ∧
    PdError.isMissingColumn .attributeError = false :=
  no_column_concept_attributeError (.hasColumn { columns := ["a"] })
    (.list [1]) rfl (Or.inr ⟨[1], rfl⟩)

/-- C2 counterexample: with `allow_empty=True`, the dtype hook is not a
no-op on a zero-row table that has all required columns: it still compares
dtypes and raises `WrongDtypeError` on a mismatch. -/
theorem dtype_hook_empty_cex :
    ColumnHasDtype.validate
        { dtypes := [("a", "int64")], allow_empty := true }
        (.table { nrows := 0,
                  cols := [("a", { dtype := "object", cells := [] })] })
      = .error (.wrongDtype [("a", "object", "int64")]) := by
  rfl

/-- C2 (amended): with `allow_empty=True` on a zero-row table having all
required columns, the null-policy, uniqueness and single-value hooks are
no-ops and `validate` returns the table; the dtype hook however ignores
the emptiness flag and still performs its dtype comparison, so the dtype
validator returns the empty table only when every configured column's
dtype tag matches, and raises `WrongDtypeError` otherwise. -/
theorem allow_empty_hook_behaviour
    (vH : HasColumn) (vD : ColumnHasDtype) (vN : ColumnNotNull)
    (vU : ColumnUnique) (vS : ColumnSingleValue) (t : Table)
    (hz : t.nrows = 0)
    (hH : ∀ c ∈ vH.columns, c ∈ t.colNames) (hHa : vH.allow_empty = true)
    (hD : ∀ c ∈ vD.toHasColumn.columns, c ∈ t.colNames)
    (hDa : vD.allow_empty = true)
    (hN : ∀ c ∈ vN.toHasColumn.columns, c ∈ t.colNames)
    (hNa : vN.allow_empty = true)
    (hU : ∀ c ∈ vU.columns, c ∈ t.colNames) (hUa : vU.allow_empty = true)
    (hS : ∀ c ∈ vS.columns, c ∈ t.colNames) (hSa : vS.allow_empty = true) :
    vH.validate (.table t) = .ok (.table t) ∧
    vN.validate (.table t) = .ok (.table t) ∧
    vU.validate (.table t) = .ok (.table t) ∧
    vS.validate (.table t) = .ok (.table t) ∧
    (vD.validate (.table t) =
      if (vD.wrongDtypes t).isEmpty then .ok (.table t)
      else .error (.wrongDtype ((vD.wrongDtypes t).map
        (fun p => (p.1, (t.dtypeOf p.1).getD "", p.2))))) := by
  refine ⟨?_, ?_, ?_, ?_, ?_⟩
  · rw [HasColumn.validate, hasColumnValidate_empty vH _ t hH hz hHa]
    rfl
  · rw [ColumnNotNull.validate,
      hasColumnValidate_empty vN.toHasColumn _ t hN hz
        (by simpa [ColumnNotNull.toHasColumn] using hNa)]
    rfl
  · rw [ColumnUnique.validate,
      hasColumnValidate_empty vU.toHasColumn _ t
        (by simpa [ColumnUnique.toHasColumn] using hU) hz
        (by simpa [ColumnUnique.toHasColumn] using hUa)]
    rfl
  · rw [ColumnSingleValue.validate,
      hasColumnValidate_empty vS.toHasColumn _ t
        (by simpa [ColumnSingleValue.toHasColumn] using hS) hz
        (by simpa [ColumnSingleValue.toHasColumn] using hSa)]
    rfl
  · rw [ColumnHasDtype.validate,
      hasColumnValidate_empty vD.toHasColumn _ t hD hz
        (by simpa [ColumnHasDtype.toHasColumn] using hDa)]
    by_cases hw : (vD.wrongDtypes t).isEmpty = true
    · simp [ColumnHasDtype.validate_details, hw]
    · simp only [Bool.not_eq_true] at hw
      simp [ColumnHasDtype.validate_details, hw]

theorem allow_empty_hook_behaviour_witness :
    HasColumn.validate { columns := ["a"], allow_empty := true }
        (.table emptyTableA) = .ok (.table emptyTableA) ∧
    ColumnNotNull.validate { notnull := [("a", "all")], allow_empty := true }
        (.table emptyTableA) = .ok (.table emptyTableA) ∧
    ColumnUnique.validate { columns := ["a"], allow_empty := true }
        (.table emptyTableA) = .ok (.table emptyTableA) ∧
    ColumnSingleValue.validate { columns := ["a"], allow_empty := true }
        (.table emptyTableA) = .ok (.table emptyTableA) ∧
    ColumnHasDtype.validate { dtypes := [("a", "int64")], allow_empty := true }
        (.table emptyTableA) = .ok (.table emptyTableA) := by
  have h := allow_empty_hook_behaviour
    { columns := ["a"], allow_empty := true }
    { dtypes := [("a", "int64")], allow_empty := true }
    { notnull := [("a", "all")], allow_empty := true }
    { columns := ["a"], allow_empty := true }
    { columns := ["a"], allow_empty := true }
    emptyTableA rfl (by decide) rfl (by decide) rfl (by decide) rfl
    (by decide) rfl (by decide) rfl
  refine ⟨h.1, h.2.1, h.2.2.1, h.2.2.2.1, ?_⟩
  rw [h.2.2.2.2]
  rfl

/-- C4: for the null-policy validator on a non-empty frame containing the
configured columns, an entry with policy `'all'` passes exactly when its
column has zero nulls, an entry with policy `'any'` passes exactly when
its null count is strictly below the row count; all violating columns are
collected, and one `ColumnNullError` is raised naming each violating
column with its null count and declared policy (and the frame is returned
unchanged when no column violates). -/
theorem columnNotNull_policy (v : ColumnNotNull) (t : Table)
    (hcols : ∀ p ∈ v.notnull, p.1 ∈ t.colNames)
    (hne : t.nrows ≠ 0) :
    (∀ p ∈ v.notnull, p.2 = "all" →
      (p ∉ v.wrongContent t ↔ t.nullCount p.1 = 0)) ∧
    (∀ p ∈ v.notnull, p.2 = "any" →
      (p ∉ v.wrongContent t ↔ t.nullCount p.1 < t.nrows)) ∧
    (v.wrongContent t = [] → v.validate (.table t) = .ok (.table t)) ∧
    (v.wrongContent t ≠ [] →
      v.validate (.table t) = .error (.columnNull t.nrows
        ((v.wrongContent t).map (fun p => (p.1, t.nullCount p.1, p.2))))) := by
  have hcols' : ∀ c ∈ v.toHasColumn.columns, c ∈ t.colNames := by
    intro c hc
    simp only [ColumnNotNull.toHasColumn, List.mem_map] at hc
    obtain ⟨p, hp, rfl⟩ := hc
    exact hcols p hp
  have hv : v.validate (.table t) =
      match v.validate_details t false with
      | .ok _ => .ok (.table t)
      | .error e => .error e := by
    rw [ColumnNotNull.validate, hasColumnValidate_nonempty _ _ t hcols' hne]
  refine ⟨?_, ?_, ?_, ?_⟩
  · intro p hp hall
    simp [ColumnNotNull.wrongContent, List.mem_filter, hp, hall,
      Table.notnullAll, List.elem_iff, hcols p hp]
  · intro p hp hany
    simp [ColumnNotNull.wrongContent, List.mem_filter, hp, hany,
      Table.notnullAny, List.elem_iff, hcols p hp]
  · intro hw
    rw [hv]
    simp [ColumnNotNull.validate_details, hw]
  · intro hw
    rw [hv]
    simp [ColumnNotNull.validate_details, List.isEmpty_iff, hw]

theorem columnNotNull_policy_witness :
    ColumnNotNull.validate { notnull := [("a", "all"), ("b", "any")] }
        (.table nullTableAB)
      = .error (.columnNull 2 [("a", 1, "all"), ("b", 2, "any")]) := by
  have h := (columnNotNull_policy { notnull := [("a", "all"), ("b", "any")] }
      nullTableAB (by decide) (by decide)).2.2.2 (by decide)
  exact h

/-- C6: for the dtype validator on a non-empty frame containing all
configured columns, a configured column is collected as offending exactly
when its actual dtype tag differs from the expected one (all mismatches
collected, no fail-fast); one `WrongDtypeError` is raised naming every
offending column with actual and expected tag, and when every configured
column matches the same frame is returned unchanged. -/
theorem columnHasDtype_spec (v : ColumnHasDtype) (t : Table)
    (hcols : ∀ p ∈ v.dtypes, p.1 ∈ t.colNames)
    (hne : t.nrows ≠ 0) :
    (∀ p ∈ v.dtypes, (p ∈ v.wrongDtypes t ↔ ¬ t.dtypeOf p.1 = some p.2)) ∧
    (v.wrongDtypes t = [] → v.validate (.table t) = .ok (.table t)) ∧
    (v.wrongDtypes t ≠ [] →
      v.validate (.table t) = .error (.wrongDtype ((v.wrongDtypes t).map
        (fun p => (p.1, (t.dtypeOf p.1).getD "", p.2))))) := by
  have hcols' : ∀ c ∈ v.toHasColumn.columns, c ∈ t.colNames := by
    intro c hc
    simp only [ColumnHasDtype.toHasColumn, List.mem_map] at hc
    obtain ⟨p, hp, rfl⟩ := hc
    exact hcols p hp
  have hv : v.validate (.table t) =
      match v.validate_details t false with
      | .ok _ => .ok (.table t)
      | .error e => .error e := by
    rw [ColumnHasDtype.validate, hasColumnValidate_nonempty _ _ t hcols' hne]
  refine ⟨?_, ?_, ?_⟩
  · intro p hp
    simp [ColumnHasDtype.wrongDtypes, List.mem_filter, hp]
  · intro hw
    rw [hv]
    simp [ColumnHasDtype.validate_details, hw]
  · intro hw
    rw [hv]
    simp [ColumnHasDtype.validate_details, List.isEmpty_iff, hw]

theorem columnHasDtype_spec_witness :
    (ColumnHasDtype.validate { dtypes := [("a", "int64"), ("b", "int64")] }
        (.table typedTableAB)
      = .error (.wrongDtype [("b", "object", "int64")])) ∧
    (ColumnHasDtype.validate { dtypes := [("a", "int64"), ("b", "object")] }
        (.table typedTableAB)
      = .ok (.table typedTableAB)) := by
  constructor
  · exact (columnHasDtype_spec { dtypes := [("a", "int64"), ("b", "int64")] }
      typedTableAB (by decide) (by decide)).2.2 (by decide)
  · exact (columnHasDtype_spec { dtypes := [("a", "int64"), ("b", "object")] }
      typedTableAB (by decide) (by decide)).2.1 (by decide)

/-- C9: a configured null-policy entry whose policy tag is neither `'any'`
nor `'all'` is silently skipped: it is never collected among the violating
columns, and a validator configured only with such entries never raises
from its detail hook, whatever the null content of the frame. -/
theorem columnNotNull_unknown_policy (v : ColumnNotNull) (t : Table)
    (p : String × String) (_hp : p ∈ v.notnull)
    (hany : p.2 ≠ "any") (hall : p.2 ≠ "all") :
    p ∉ v.wrongContent t ∧
    ((∀ q ∈ v.notnull, q.2 ≠ "any" ∧ q.2 ≠ "all") →
      ∀ b, v.validate_details t b = .ok ()) := by
  constructor
  · simp [ColumnNotNull.wrongContent, List.mem_filter, hany, hall]
  · intro hq b
    have hwc : v.wrongContent t = [] := by
      refine List.filter_eq_nil_iff.mpr ?_
      intro q hqm
      obtain ⟨h1, h2⟩ := hq q hqm
      simp [h1, h2]
    cases b <;> simp [ColumnNotNull.validate_details, hwc]

theorem columnNotNull_unknown_policy_witness :
    ("a", "most") ∉
      ColumnNotNull.wrongContent { notnull := [("a", "most")] }
        allNullTableA ∧
    ((∀ q ∈ ({ notnull := [("a", "most")] } : ColumnNotNull).notnull,
        q.2 ≠ "any" ∧ q.2 ≠ "all") →
      ∀ b, ColumnNotNull.validate_details { notnull := [("a", "most")] }
        allNullTableA b = .ok ()) :=
  columnNotNull_unknown_policy { notnull := [("a", "most")] } allNullTableA
    ("a", "most") (by decide) (by decide) (by decide)

theorem hasColumnValidate_error_hook (cfg : HasColumn)
    (hook : Table → Bool → Except PdError Unit) (t : Table) (e : PdError)
    (h : hasColumnValidate cfg hook (.table t) = .error e)
    (hnotEmpty : e.isEmptyValue = false)
    (hnotMissing : e.isMissingColumn = false) :
    ∃ b, hook t b = .error e := by
  simp only [hasColumnValidate] at h
  cases h1 : cfg.validate_has_columns (PyVal.table t) with
  | error e' =>
      rw [h1] at h
      simp at h
      subst h
      simp only [HasColumn.validate_has_columns] at h1
      split at h1
      · simp at h1
      · simp only [Except.error.injEq] at h1
        subst h1
        simp [PdError.isMissingColumn] at hnotMissing
  | ok u =>
      rw [h1] at h
      cases h2 : cfg.validate_empty t with
      | error e' =>
          rw [h2] at h
          simp at h
          subst h
          simp only [HasColumn.validate_empty] at h2
          split at h2
          · split at h2
            · simp at h2
            · simp only [Except.error.injEq] at h2
              subst h2
              simp [PdError.isEmptyValue] at hnotEmpty
          · simp at h2
      | ok b =>
          rw [h2] at h
          cases h3 : hook t b with
          | error e' =>
              simp [h3] at h
              exact ⟨b, h ▸ h3⟩
          | ok u2 => simp [h3] at h

theorem singleValue_error_nunique (v : ColumnSingleValue) (t : Table)
    (c : String)
    (h : v.validate (.table t) = .error (.notSingleValue c)) :
    1 < t.nunique c := by
  rw [ColumnSingleValue.validate] at h
  obtain ⟨b, hb⟩ :=
    hasColumnValidate_error_hook v.toHasColumn _ t _ h rfl rfl
  simp only [ColumnSingleValue.validate_details] at hb
  cases b with
  | true => simp at hb
  | false =>
      simp only [Bool.false_eq_true, if_false] at hb
      cases h4 : v.columns.find? (fun x => decide (1 < t.nunique x)) with
      | none => rw [h4] at hb; simp at hb
      | some c' =>
          rw [h4] at hb
          simp at hb
          have hpred := List.find?_some h4
          rw [hb] at hpred
          exact of_decide_eq_true hpred

/-- C10: for the single-value validator, an entirely-null column passes:
the distinct-value count excludes nulls, so it is 0 for such a column,
`validate` never raises `NotSingleValue` for it, and a single-value
validator configured exactly on that column returns a non-empty frame
containing it unchanged. -/
theorem columnSingleValue_allNull (v : ColumnSingleValue) (t : Table)
    (c : String) (col : Column) (hc : t.getCol c = some col)
    (hnull : ∀ x ∈ col.cells, x = Option.none) :
    t.nunique c = 0 ∧
    v.validate (.table t) ≠ .error (.notSingleValue c) ∧
    (v.columns = [c] → c ∈ t.colNames → t.nrows ≠ 0 →
      v.validate (.table t) = .ok (.table t)) := by
  have h0 : t.nunique c = 0 := by
    have hfm : col.cells.filterMap id = [] := by
      refine List.filterMap_eq_nil_iff.mpr ?_
      intro a ha
      simp [hnull a ha]
    simp [Table.nunique, hc, hfm]
  refine ⟨h0, ?_, ?_⟩
  · intro h
    have := singleValue_error_nunique v t c h
    rw [h0] at this
    exact absurd this (by decide)
  · intro hvc hcmem hne
    have hcols' : ∀ x ∈ v.toHasColumn.columns, x ∈ t.colNames := by
      intro x hx
      simp only [ColumnSingleValue.toHasColumn, hvc, List.mem_singleton] at hx
      subst hx
      exact hcmem
    rw [ColumnSingleValue.validate,
      hasColumnValidate_nonempty _ _ t hcols' hne]
    simp [ColumnSingleValue.validate_details, ColumnSingleValue.toHasColumn,
      hvc, List.find?, h0]

theorem columnSingleValue_allNull_witness :
    allNullTableA.nunique "a" = 0 ∧
    ColumnSingleValue.validate { columns := ["a"] } (.table allNullTableA)
      ≠ .error (.notSingleValue "a") ∧
    ColumnSingleValue.validate { columns := ["a"] } (.table allNullTableA)
      = .ok (.table allNullTableA) := by
  have h := columnSingleValue_allNull { columns := ["a"] } allNullTableA
    "a" { dtype := "object", cells := [Option.none, Option.none] }
    (by decide) (by decide)
  exact ⟨h.1, h.2.1, h.2.2 rfl (by decide) (by decide)⟩
